import Mathlib

/-!
Shallow embedding of the truncation widgets in
`src/src/common/utils/ExpandableContent.tsx` (the `ExpandableContent`
controller and the `ExpandableText` variant) and of the loading/empty/error
switcher `LoadingComponent` (the unnamed source file).

Numeric options that JavaScript tests for truthiness (`if (maxLines)`,
`if (maxCharacters)`, `maxWords ? _ : _`) are modelled as `Option Nat`
together with the `truthyNat` predicate, so that both `undefined` and `0`
fall into the falsy branch, exactly as in the source.
-/

/-- JavaScript truthiness of an optional number: `undefined` and `0` are falsy. -/
def truthyNat (o : Option Nat) : Bool :=
  match o with
  | none => false
  | some n => n != 0

/-- The construction props of `ExpandableContent`, with the original default
values. `controlledExpanded` models the optional `expanded` prop;
`hasOnToggle` records whether an `onToggle` callback was supplied. -/
structure ExpandableContentProps where
  maxHeight : Nat := 100
  maxLines : Option Nat := none
  lineHeight : Nat := 24
  maxCharacters : Option Nat := none
  expandText : String := "Show more"
  collapseText : String := "Show less"
  showGradient : Bool := true
  controlled : Bool := false
  controlledExpanded : Option Bool := none
  hasOnToggle : Bool := false
  animationDuration : Nat := 300
deriving Repr

/-- The observed content node: `asString` is `some s` when the `children`
prop is the string `s` (the `typeof children === "string"` test);
`textContent` is the text of the DOM node; `scrollHeight` its natural height. -/
structure ContentNode where
  asString : Option String := none
  textContent : String := ""
  scrollHeight : Nat := 0
deriving Repr

/-- The text `getTruncatedContent` works on: the `children` string itself when
`children` is a string, otherwise `contentRef.current?.textContent || ""`. -/
def ContentNode.effectiveText (c : ContentNode) : String :=
  match c.asString with
  | some s => s
  | none => c.textContent

/-- The `useState` cells of the controller. -/
structure ExpandableContentState where
  internalExpanded : Bool := false
  needsExpansion : Bool := false
  fullContentHeight : Nat := 0
  calculatedMaxHeight : Nat
deriving Repr, DecidableEq

/-- Initial state: `useState(false)`, `useState(false)`, `useState(0)`,
`useState(maxHeight)`. -/
def initState (p : ExpandableContentProps) : ExpandableContentState :=
  { calculatedMaxHeight := p.maxHeight }

/-- The collapsed height computed in the effect body:
`let collapsedHeight = maxHeight; if (maxLines) collapsedHeight = lineHeight * maxLines`. -/
def collapsedHeightOf (p : ExpandableContentProps) : Nat :=
  if truthyNat p.maxLines then p.lineHeight * p.maxLines.getD 0 else p.maxHeight

/-- The synchronous part of the mount effect: `setCalculatedMaxHeight(collapsedHeight)`.
It runs before any `ResizeObserver` callback fires. -/
def runEffect (p : ExpandableContentProps) (s : ExpandableContentState) :
    ExpandableContentState :=
  { s with calculatedMaxHeight := collapsedHeightOf p }

/-- One `ResizeObserver` callback on the content node: record
`scrollHeight` in `fullContentHeight` and recompute `needsExpansion`,
comparing text length when `maxCharacters` is truthy and natural height
against the closed-over `collapsedHeight` otherwise. -/
def observe (p : ExpandableContentProps) (c : ContentNode)
    (s : ExpandableContentState) : ExpandableContentState :=
  { s with
    fullContentHeight := c.scrollHeight
    needsExpansion :=
      if truthyNat p.maxCharacters then
        decide (c.textContent.length > p.maxCharacters.getD 0)
      else
        decide (c.scrollHeight > collapsedHeightOf p) }

/-- `const expanded = controlled ? controlledExpanded ?? false : internalExpanded`. -/
def expandedVal (p : ExpandableContentProps) (s : ExpandableContentState) : Bool :=
  if p.controlled then p.controlledExpanded.getD false else s.internalExpanded

/-- `handleToggle`: returns the state after the click together with the value
passed to `onToggle` when the callback branch was taken (`none` otherwise). -/
def handleToggle (p : ExpandableContentProps) (s : ExpandableContentState) :
    ExpandableContentState × Option Bool :=
  if p.controlled && p.hasOnToggle then
    (s, some (!(expandedVal p s)))
  else
    ({ s with internalExpanded := !(expandedVal p s) }, none)

/-- What content appears inside the container: the original `children`, or a
truncated string produced by character-based slicing. -/
inductive DisplayedContent where
  | original
  | truncated (text : String)
deriving Repr, DecidableEq

/-- `getTruncatedContent`: pass `children` through unless a truthy character
bound is set and we are collapsed and the text is longer than the bound, in
which case the text is sliced to the bound with `"..."` appended. -/
def getTruncatedContent (p : ExpandableContentProps) (c : ContentNode)
    (expanded : Bool) : DisplayedContent :=
  if !(truthyNat p.maxCharacters) || expanded then .original
  else
    let textContent := c.effectiveText
    if textContent.length ≤ p.maxCharacters.getD 0 then .original
    else .truncated (textContent.take (p.maxCharacters.getD 0) ++ "...")

/-- The height-constrained presentation: the `max-height` style of the container,
the content inside it, whether the gradient overlay and the toggle button are
rendered, the button label and the transition duration. -/
structure ConstrainedRender where
  maxHeightPx : Nat
  content : DisplayedContent
  overlay : Bool
  button : Bool
  buttonLabel : String
  animationMs : Nat
deriving Repr, DecidableEq

/-- The rendered output of the component: either the bare
`<div>{children}</div>` (the early return for content that fits), or the
constrained container. -/
inductive Render where
  | direct
  | constrained (r : ConstrainedRender)
deriving Repr, DecidableEq

/-- The render function of `ExpandableContent`: early-return the unconstrained
div when `!needsExpansion && fullContentHeight > 0`; otherwise render the
overflow-hidden container whose `max-height` is `fullContentHeight` when
expanded and `calculatedMaxHeight` when collapsed, with the gradient overlay
when `showGradient && !expanded` and the toggle button when `needsExpansion`. -/
def render (p : ExpandableContentProps) (c : ContentNode)
    (s : ExpandableContentState) : Render :=
  let expanded := expandedVal p s
  if !s.needsExpansion && decide (s.fullContentHeight > 0) then .direct
  else
    .constrained
      { maxHeightPx := if expanded then s.fullContentHeight else s.calculatedMaxHeight
        content := getTruncatedContent p c expanded
        overlay := p.showGradient && !expanded
        button := s.needsExpansion
        buttonLabel := if expanded then p.collapseText else p.expandText
        animationMs := p.animationDuration }

/-- Content of a rendered output (the direct branch shows the original children). -/
def renderContent : Render → DisplayedContent
  | .direct => .original
  | .constrained r => r.content

/-- Whether the rendered output contains the toggle button. -/
def renderHasButton : Render → Bool
  | .direct => false
  | .constrained r => r.button

/-- Whether the rendered output contains the gradient overlay. -/
def renderHasOverlay : Render → Bool
  | .direct => false
  | .constrained r => r.overlay

/-- The `max-height` constraint of the rendered output, `none` for the
unconstrained direct branch. -/
def renderMaxHeight : Render → Option Nat
  | .direct => none
  | .constrained r => some r.maxHeightPx

namespace ExpandableText

/-- Structural splitter on a separator class: the pieces of a character list
between separator characters, empty pieces kept, matching the JavaScript
`String.prototype.split` with a one-character separator (and, for the
whitespace class, a split on whitespace). Written by structural recursion so
that concrete inputs evaluate by kernel reduction. -/
def splitPieces (isSep : Char → Bool) : List Char → List (List Char)
  | [] => [[]]
  | ch :: rest =>
    match splitPieces isSep rest with
    | [] => [[ch]]
    | piece :: more =>
      if isSep ch then [] :: piece :: more
      else (ch :: piece) :: more

/-- Number of pieces of `text.split(" ")`: splitting on the literal space
character, exactly as the source does. -/
def spaceWordCount (text : String) : Nat :=
  (splitPieces (fun ch => ch == ' ') text.toList).length

/-- `needsTruncation` of `ExpandableText`:
`maxWords ? text.split(" ").length > maxWords : text.length > maxCharacters`. -/
def needsTruncation (text : String) (maxCharacters : Nat)
    (maxWords : Option Nat) : Bool :=
  if truthyNat maxWords then decide (spaceWordCount text > maxWords.getD 0)
  else decide (text.length > maxCharacters)

/-- Modelled from the spec: the formula of the spec
`needsTruncation = (wordBound ? wordCount(text) > wordBound : text.length > charBound)`
with `wordCount` splitting the text on whitespace, as the words of the spec say;
written only to be compared against the `needsTruncation` of the source, which
splits on the space character. -/
def needsTruncationSpecModel (text : String) (charBound : Nat)
    (wordBound : Option Nat) : Bool :=
  match wordBound with
  | some w => decide ((splitPieces (fun ch => ch.isWhitespace) text.toList).length > w)
  | none => decide (text.length > charBound)

/-- `getTruncatedText` of `ExpandableText`. -/
def getTruncatedText (text : String) (maxCharacters : Nat)
    (maxWords : Option Nat) : String :=
  if truthyNat maxWords then
    let words := (splitPieces (fun ch => ch == ' ') text.toList).map
      (fun piece => String.mk piece)
    if words.length > maxWords.getD 0 then
      String.intercalate " " (words.take (maxWords.getD 0)) ++ "..."
    else text
  else
    if text.length > maxCharacters then text.take maxCharacters ++ "..."
    else text

/-- The rendered output of `ExpandableText`: a bare paragraph with the full
text and no button, or a paragraph with the shown text plus the toggle button. -/
inductive TextRender where
  | plain (text : String)
  | toggled (shown : String) (label : String)
deriving Repr, DecidableEq

/-- The render function of `ExpandableText` (default `maxCharacters = 150`
is supplied by callers of this model). -/
def renderText (text : String) (maxCharacters : Nat) (maxWords : Option Nat)
    (expanded : Bool) (expandLabel collapseLabel : String) : TextRender :=
  if !(needsTruncation text maxCharacters maxWords) then .plain text
  else
    .toggled (if expanded then text else getTruncatedText text maxCharacters maxWords)
      (if expanded then collapseLabel else expandLabel)

end ExpandableText

/-- The `children` prop of `LoadingComponent`: either a render function of the
data or a plain node. -/
inductive LCChildren (T N : Type) where
  | fn (f : T → N)
  | node (n : N)

/-- Props of `LoadingComponent` with the original defaults; `data : Option T`
models `data?: T` (`none` is `undefined`). -/
structure LoadingComponentProps (T N : Type) where
  loading : Bool
  empty : Bool := false
  error : Bool := false
  data : Option T := none
  loadingComponent : Option N := none
  emptyComponent : Option N := none
  errorComponent : Option N := none
  children : Option (LCChildren T N) := none

/-- The return value of `LoadingComponent`: which branch was taken and what it
holds. `errorUI none` stands for the built-in
`<CenterOnLgScreen><ErrorDisplay/></CenterOnLgScreen>` fallback (likewise for
the loading and empty branches); `fragment none` is a fragment wrapping
`null`/`undefined`. -/
inductive LCResult (N : Type) where
  | errorUI (custom : Option N)
  | loadingUI (custom : Option N)
  | emptyUI (custom : Option N)
  | fragment (node : Option N)

/-- The body of `LoadingComponent`: error, then loading, then empty, then the
children; a function child is applied to `data` only when `data` is defined,
otherwise `null` is rendered. -/
def LoadingComponent {T N : Type} (p : LoadingComponentProps T N) : LCResult N :=
  if p.error then .errorUI p.errorComponent
  else if p.loading then .loadingUI p.loadingComponent
  else if p.empty then .emptyUI p.emptyComponent
  else
    match p.children with
    | some (.fn f) => .fragment (p.data.map f)
    | some (.node n) => .fragment (some n)
    | none => .fragment none

/-- C1: when no character bound is active and the measured natural height
exceeds the resolved collapsed bound, the controller sets `needsExpansion`
true, renders the content with `max-height` equal to the resolved collapsed
bound while collapsed (with the toggle button present), and with `max-height`
equal to the full natural height after toggling to expanded. -/
theorem C1_height_exceeds_bound (p : ExpandableContentProps) (c : ContentNode)
    (hchar : truthyNat p.maxCharacters = false)
    (hctrl : p.controlled = false)
    (hgt : collapsedHeightOf p < c.scrollHeight) :
    (observe p c (runEffect p (initState p))).needsExpansion = true ∧
    renderMaxHeight (render p c (observe p c (runEffect p (initState p)))) =
      some (collapsedHeightOf p) ∧
    renderHasButton (render p c (observe p c (runEffect p (initState p)))) = true ∧
    renderMaxHeight
        (render p c (handleToggle p (observe p c (runEffect p (initState p)))).1) =
      some c.scrollHeight := by
  have hne : decide (c.scrollHeight > collapsedHeightOf p) = true := by
    simpa using hgt
  refine ⟨?_, ?_, ?_, ?_⟩ <;>
    simp [observe, runEffect, initState, render, expandedVal, handleToggle,
      renderMaxHeight, renderHasButton, hchar, hctrl, hne]

/-- Witness for C1 at the scenario of the spec: `maxLines = 3`,
`lineHeight = 24`, natural height `140`; the resolved bound is `72`, the
flag is set, collapsed `max-height` is `72` and expanded `max-height` is `140`. -/
theorem C1_height_exceeds_bound_witness :
    collapsedHeightOf { maxLines := some 3, lineHeight := 24 } <
        ({ scrollHeight := 140 } : ContentNode).scrollHeight ∧
    ((observe { maxLines := some 3, lineHeight := 24 } { scrollHeight := 140 }
        (runEffect { maxLines := some 3, lineHeight := 24 }
          (initState { maxLines := some 3, lineHeight := 24 }))).needsExpansion = true ∧
      renderMaxHeight
          (render { maxLines := some 3, lineHeight := 24 } { scrollHeight := 140 }
            (observe { maxLines := some 3, lineHeight := 24 } { scrollHeight := 140 }
              (runEffect { maxLines := some 3, lineHeight := 24 }
                (initState { maxLines := some 3, lineHeight := 24 })))) =
        some (collapsedHeightOf { maxLines := some 3, lineHeight := 24 }) ∧
      renderHasButton
          (render { maxLines := some 3, lineHeight := 24 } { scrollHeight := 140 }
            (observe { maxLines := some 3, lineHeight := 24 } { scrollHeight := 140 }
              (runEffect { maxLines := some 3, lineHeight := 24 }
                (initState { maxLines := some 3, lineHeight := 24 })))) = true ∧
      renderMaxHeight
          (render { maxLines := some 3, lineHeight := 24 } { scrollHeight := 140 }
            (handleToggle { maxLines := some 3, lineHeight := 24 }
              (observe { maxLines := some 3, lineHeight := 24 } { scrollHeight := 140 }
                (runEffect { maxLines := some 3, lineHeight := 24 }
                  (initState { maxLines := some 3, lineHeight := 24 })))).1) =
        some ({ scrollHeight := 140 } : ContentNode).scrollHeight) :=
  ⟨by decide,
   C1_height_exceeds_bound { maxLines := some 3, lineHeight := 24 }
     { scrollHeight := 140 } (by decide) (by decide) (by decide)⟩

/-- C8: with a positive line bound `m` and line height `h`, the resolved
collapsed bound is `m * h`, overriding the literal height bound; with no line
bound the literal `maxHeight` is used, and its default value is `100`. -/
theorem C8_resolved_bound (p : ExpandableContentProps) (m h : Nat)
    (hm : p.maxLines = some m) (h0m : 0 < m)
    (hh : p.lineHeight = h) (h0h : 0 < h) :
    collapsedHeightOf p = m * h ∧
    (∀ q : ExpandableContentProps, q.maxLines = none →
      collapsedHeightOf q = q.maxHeight) ∧
    ({} : ExpandableContentProps).maxHeight = 100 := by
  refine ⟨?_, ?_, rfl⟩
  · have hm0 : (m != 0) = true := by simp; omega
    simp [collapsedHeightOf, truthyNat, hm, hm0, hh, Nat.mul_comm]
  · intro q hq
    simp [collapsedHeightOf, truthyNat, hq]

/-- Witness for C8 at `maxLines = 3`, `lineHeight = 24`: the resolved bound
is `3 * 24 = 72`. -/
theorem C8_resolved_bound_witness :
    (0 < 3 ∧ 0 < 24) ∧
    (collapsedHeightOf { maxLines := some 3, lineHeight := 24 } = 3 * 24 ∧
      (∀ q : ExpandableContentProps, q.maxLines = none →
        collapsedHeightOf q = q.maxHeight) ∧
      ({} : ExpandableContentProps).maxHeight = 100) :=
  ⟨by decide,
   C8_resolved_bound { maxLines := some 3, lineHeight := 24 } 3 24 rfl
     (by decide) rfl (by decide)⟩

/-- C6: in external-ownership mode (`controlled = true` with a callback
supplied), a toggle click leaves the whole controller state unchanged and only
emits the callback with the negation of the externally supplied boolean; the
effective expanded value never depends on the internal copy in that mode. -/
theorem C6_controlled_toggle_pure (p : ExpandableContentProps)
    (s : ExpandableContentState)
    (hc : p.controlled = true) (hcb : p.hasOnToggle = true) :
    handleToggle p s = (s, some (!(expandedVal p s))) ∧
    (handleToggle p s).2 = some (!(p.controlledExpanded.getD false)) ∧
    (∀ b, expandedVal p { s with internalExpanded := b } = expandedVal p s) := by
  refine ⟨?_, ?_, ?_⟩ <;> simp [handleToggle, expandedVal, hc, hcb]

/-- Witness for C6: controlled mode with `expanded = false` and a callback;
the click emits `some true` and the state is untouched. -/
theorem C6_controlled_toggle_pure_witness :
    handleToggle { controlled := true, controlledExpanded := some false, hasOnToggle := true }
        (initState { controlled := true, controlledExpanded := some false, hasOnToggle := true }) =
      (initState { controlled := true, controlledExpanded := some false, hasOnToggle := true },
        some (!(expandedVal
          { controlled := true, controlledExpanded := some false, hasOnToggle := true }
          (initState { controlled := true, controlledExpanded := some false, hasOnToggle := true })))) ∧
    (handleToggle { controlled := true, controlledExpanded := some false, hasOnToggle := true }
        (initState { controlled := true, controlledExpanded := some false, hasOnToggle := true })).2 =
      some (!((some false : Option Bool).getD false)) ∧
    (∀ b, expandedVal
        { controlled := true, controlledExpanded := some false, hasOnToggle := true }
        { initState { controlled := true, controlledExpanded := some false, hasOnToggle := true } with
            internalExpanded := b } =
      expandedVal { controlled := true, controlledExpanded := some false, hasOnToggle := true }
        (initState { controlled := true, controlledExpanded := some false, hasOnToggle := true })) :=
  C6_controlled_toggle_pure _ _ rfl rfl

/-- C5 counterexample: with `controlled = true` and no `onToggle` callback, a
toggle click is not a state no-op — `handleToggle` falls into the internal
branch and overwrites `internalExpanded` (here from `false` to `true`), so the
controller state is changed. -/
theorem C5_counterexample :
    (initState { controlled := true }).internalExpanded = false ∧
    (handleToggle { controlled := true }
        (initState { controlled := true })).1.internalExpanded = true ∧
    (handleToggle { controlled := true } (initState { controlled := true })).1 ≠
      initState { controlled := true } := by
  refine ⟨rfl, rfl, ?_⟩ ; decide

/-- C5 amended: with `controlled = true` and no callback, a toggle click does
not throw and emits no callback, and the effective expanded value (derived
from the external boolean) is unchanged; however the internal expanded copy is
overwritten with the negation of the effective expanded value rather than
being left untouched. -/
theorem C5_amended (p : ExpandableContentProps) (s : ExpandableContentState)
    (hc : p.controlled = true) (hno : p.hasOnToggle = false) :
    (handleToggle p s).2 = none ∧
    (handleToggle p s).1 = { s with internalExpanded := !(expandedVal p s) } ∧
    expandedVal p (handleToggle p s).1 = expandedVal p s := by
  refine ⟨?_, ?_, ?_⟩ <;> simp [handleToggle, expandedVal, hc, hno]

/-- Witness for C5 amended at a concrete controlled configuration without a
callback. -/
theorem C5_amended_witness :
    (handleToggle { controlled := true, controlledExpanded := some false }
        (initState { controlled := true, controlledExpanded := some false })).2 = none ∧
    (handleToggle { controlled := true, controlledExpanded := some false }
        (initState { controlled := true, controlledExpanded := some false })).1 =
      { initState { controlled := true, controlledExpanded := some false } with
          internalExpanded :=
            !(expandedVal { controlled := true, controlledExpanded := some false }
              (initState { controlled := true, controlledExpanded := some false })) } ∧
    expandedVal { controlled := true, controlledExpanded := some false }
        (handleToggle { controlled := true, controlledExpanded := some false }
          (initState { controlled := true, controlledExpanded := some false })).1 =
      expandedVal { controlled := true, controlledExpanded := some false }
        (initState { controlled := true, controlledExpanded := some false }) :=
  C5_amended _ _ rfl rfl

/-- C4 counterexample: before the first measurement (the full-content-height
cell still holds the `0` sentinel, here right after the mount effect), the
component renders the collapsed height-constrained container — `max-height`
equal to the collapsed bound `100`, gradient overlay shown — rather than
nothing definitive. -/
theorem C4_counterexample :
    (runEffect ({} : ExpandableContentProps)
        (initState ({} : ExpandableContentProps))).fullContentHeight = 0 ∧
    render ({} : ExpandableContentProps) ({} : ContentNode)
        (runEffect ({} : ExpandableContentProps)
          (initState ({} : ExpandableContentProps))) =
      Render.constrained
        { maxHeightPx := 100, content := .original, overlay := true,
          button := false, buttonLabel := "Show more", animationMs := 300 } := by
  refine ⟨rfl, ?_⟩ ; decide

/-- C4 amended: before the first measurement the controller never shows the
unconstrained direct presentation (the `fullContentHeight > 0` guard blocks
it); instead, in the mount state of an uncontrolled instance it renders the
height-constrained container at the resolved collapsed bound, though without
the toggle button since `needsExpansion` is still `false`. -/
theorem C4_amended (p : ExpandableContentProps) (c : ContentNode) :
    (∀ s : ExpandableContentState, s.fullContentHeight = 0 →
      render p c s ≠ Render.direct) ∧
    (p.controlled = false →
      ∃ r, render p c (runEffect p (initState p)) = Render.constrained r ∧
        r.button = false ∧ r.maxHeightPx = collapsedHeightOf p) := by
  constructor
  · intro s h0
    simp [render, h0]
  · intro hctrl
    refine ⟨_, rfl, rfl, ?_⟩
    simp [runEffect, initState, expandedVal, hctrl]

/-- Witness for C4 amended at the default configuration and an unmeasured
node. -/
theorem C4_amended_witness :
    render ({} : ExpandableContentProps) ({} : ContentNode)
        (runEffect ({} : ExpandableContentProps)
          (initState ({} : ExpandableContentProps))) ≠ Render.direct ∧
    (∃ r, render ({} : ExpandableContentProps) ({} : ContentNode)
          (runEffect ({} : ExpandableContentProps)
            (initState ({} : ExpandableContentProps))) = Render.constrained r ∧
        r.button = false ∧
        r.maxHeightPx = collapsedHeightOf ({} : ExpandableContentProps)) :=
  ⟨(C4_amended ({} : ExpandableContentProps) ({} : ContentNode)).1
      (runEffect ({} : ExpandableContentProps)
        (initState ({} : ExpandableContentProps))) rfl,
   (C4_amended ({} : ExpandableContentProps) ({} : ContentNode)).2 rfl⟩

/-- C3 counterexample: content of measured natural height `0` (which is ≤ the
collapsed bound `100` of the default configuration) is not rendered
unconstrained without an overlay — the direct branch requires
`fullContentHeight > 0`, so the constrained container with the gradient
overlay is rendered instead. -/
theorem C3_counterexample :
    ({} : ContentNode).scrollHeight ≤ collapsedHeightOf ({} : ExpandableContentProps) ∧
    renderHasOverlay
        (render ({} : ExpandableContentProps) ({} : ContentNode)
          (observe ({} : ExpandableContentProps) ({} : ContentNode)
            (runEffect ({} : ExpandableContentProps)
              (initState ({} : ExpandableContentProps))))) = true := by
  refine ⟨?_, ?_⟩ <;> decide

/-- C3 amended: when no character bound is active and the measured natural
height is positive and at most the resolved collapsed bound, the controller
takes the direct branch — content rendered unconstrained, with no toggle
button and no fade overlay. -/
theorem C3_fits_direct (p : ExpandableContentProps) (c : ContentNode)
    (hchar : truthyNat p.maxCharacters = false)
    (hpos : 0 < c.scrollHeight)
    (hle : c.scrollHeight ≤ collapsedHeightOf p) :
    (observe p c (runEffect p (initState p))).needsExpansion = false ∧
    render p c (observe p c (runEffect p (initState p))) = Render.direct ∧
    renderHasButton (render p c (observe p c (runEffect p (initState p)))) = false ∧
    renderHasOverlay (render p c (observe p c (runEffect p (initState p)))) = false := by
  have hne : decide (c.scrollHeight > collapsedHeightOf p) = false := by
    simpa using Nat.not_lt.mpr hle
  refine ⟨?_, ?_, ?_, ?_⟩ <;>
    simp [observe, runEffect, initState, render, renderHasButton,
      renderHasOverlay, hchar, hne, hpos]

/-- Witness for C3 amended at the scenario of the spec: default bound `100`,
natural height `80` — no truncation, direct unconstrained render. -/
theorem C3_fits_direct_witness :
    (0 < ({ scrollHeight := 80 } : ContentNode).scrollHeight ∧
      ({ scrollHeight := 80 } : ContentNode).scrollHeight ≤
        collapsedHeightOf ({} : ExpandableContentProps)) ∧
    ((observe ({} : ExpandableContentProps) { scrollHeight := 80 }
        (runEffect ({} : ExpandableContentProps)
          (initState ({} : ExpandableContentProps)))).needsExpansion = false ∧
      render ({} : ExpandableContentProps) { scrollHeight := 80 }
          (observe ({} : ExpandableContentProps) { scrollHeight := 80 }
            (runEffect ({} : ExpandableContentProps)
              (initState ({} : ExpandableContentProps)))) = Render.direct ∧
      renderHasButton
          (render ({} : ExpandableContentProps) { scrollHeight := 80 }
            (observe ({} : ExpandableContentProps) { scrollHeight := 80 }
              (runEffect ({} : ExpandableContentProps)
                (initState ({} : ExpandableContentProps))))) = false ∧
      renderHasOverlay
          (render ({} : ExpandableContentProps) { scrollHeight := 80 }
            (observe ({} : ExpandableContentProps) { scrollHeight := 80 }
              (runEffect ({} : ExpandableContentProps)
                (initState ({} : ExpandableContentProps))))) = false) :=
  ⟨by decide,
   C3_fits_direct ({} : ExpandableContentProps) { scrollHeight := 80 }
     (by decide) (by decide) (by decide)⟩

/-- C9 counterexample: whitespace-only content does trigger truncation under a
character bound — with `maxCharacters = 1` and text `"  "` (two spaces, every
character whitespace), the flag is set, the toggle button is rendered and a
truncated display `" ..."` is produced. -/
theorem C9_counterexample :
    ("  ".toList.all (fun ch => ch.isWhitespace)) = true ∧
    (observe { maxCharacters := some 1 }
        { asString := some "  ", textContent := "  ", scrollHeight := 5 }
        (runEffect { maxCharacters := some 1 }
          (initState { maxCharacters := some 1 }))).needsExpansion = true ∧
    renderHasButton
        (render { maxCharacters := some 1 }
          { asString := some "  ", textContent := "  ", scrollHeight := 5 }
          (observe { maxCharacters := some 1 }
            { asString := some "  ", textContent := "  ", scrollHeight := 5 }
            (runEffect { maxCharacters := some 1 }
              (initState { maxCharacters := some 1 })))) = true ∧
    renderContent
        (render { maxCharacters := some 1 }
          { asString := some "  ", textContent := "  ", scrollHeight := 5 }
          (observe { maxCharacters := some 1 }
            { asString := some "  ", textContent := "  ", scrollHeight := 5 }
            (runEffect { maxCharacters := some 1 }
              (initState { maxCharacters := some 1 })))) =
      DisplayedContent.truncated " ..." := by
  refine ⟨?_, ?_, ?_, ?_⟩ <;> decide

/-- C9 amended: zero-length content (empty text, zero natural height) never
triggers truncation under any configuration — the flag stays `false`, no
toggle button is rendered and no truncated display is produced. Whitespace-only
content, in contrast, can trigger character-based truncation (see the
counterexample), since its character length counts the whitespace. -/
theorem C9_empty_never_truncates (p : ExpandableContentProps) (c : ContentNode)
    (ht : c.textContent = "") (ha : c.effectiveText = "")
    (hh : c.scrollHeight = 0) :
    (observe p c (runEffect p (initState p))).needsExpansion = false ∧
    renderHasButton (render p c (observe p c (runEffect p (initState p)))) = false ∧
    renderContent (render p c (observe p c (runEffect p (initState p)))) =
      DisplayedContent.original := by
  have hflag : (observe p c (runEffect p (initState p))).needsExpansion = false := by
    simp [observe, ht, hh]
  refine ⟨hflag, ?_, ?_⟩
  · simp [render, hflag, observe, hh, renderHasButton]
    intro hmc
    simp [ht]
  · simp [render, hflag, observe, hh, renderContent, getTruncatedContent, ha]


/-- Witness for C9 amended: a character-bounded configuration observing an
empty node — no flag, no button, original display. -/
theorem C9_empty_never_truncates_witness :
    (({} : ContentNode).textContent = "" ∧
      ({} : ContentNode).effectiveText = "" ∧
      ({} : ContentNode).scrollHeight = 0) ∧
    ((observe { maxCharacters := some 5 } ({} : ContentNode)
        (runEffect { maxCharacters := some 5 }
          (initState { maxCharacters := some 5 }))).needsExpansion = false ∧
      renderHasButton
          (render { maxCharacters := some 5 } ({} : ContentNode)
            (observe { maxCharacters := some 5 } ({} : ContentNode)
              (runEffect { maxCharacters := some 5 }
                (initState { maxCharacters := some 5 })))) = false ∧
      renderContent
          (render { maxCharacters := some 5 } ({} : ContentNode)
            (observe { maxCharacters := some 5 } ({} : ContentNode)
              (runEffect { maxCharacters := some 5 }
                (initState { maxCharacters := some 5 })))) =
        DisplayedContent.original) :=
  ⟨⟨rfl, rfl, rfl⟩,
   C9_empty_never_truncates { maxCharacters := some 5 } ({} : ContentNode)
     rfl rfl rfl⟩

/-- C2 counterexample: `maxCharacters = 0` is a set character bound, the text
`"ab"` is longer than it, yet — because `0` is falsy in JavaScript — the
height comparison is used instead, no toggle is rendered and the display is
the original full content rather than the first `0` characters plus `"..."`. -/
theorem C2_counterexample :
    ({ asString := some "ab", textContent := "ab", scrollHeight := 10 } :
        ContentNode).textContent.length > 0 ∧
    render { maxCharacters := some 0 }
        { asString := some "ab", textContent := "ab", scrollHeight := 10 }
        (observe { maxCharacters := some 0 }
          { asString := some "ab", textContent := "ab", scrollHeight := 10 }
          (runEffect { maxCharacters := some 0 }
            (initState { maxCharacters := some 0 }))) = Render.direct ∧
    renderHasButton
        (render { maxCharacters := some 0 }
          { asString := some "ab", textContent := "ab", scrollHeight := 10 }
          (observe { maxCharacters := some 0 }
            { asString := some "ab", textContent := "ab", scrollHeight := 10 }
            (runEffect { maxCharacters := some 0 }
              (initState { maxCharacters := some 0 })))) = false := by
  refine ⟨?_, ?_, ?_⟩ <;> decide

/-- C2 amended: for every truthy (set and positive) character bound, the
comparison is on text length instead of height; text no longer than the bound
is shown in full with no toggle; longer text is displayed collapsed as the
first `maxCharacters` characters plus `"..."` with the toggle button present,
and after toggling an uncontrolled instance to expanded the full content is
displayed again. -/
theorem C2_char_bound (p : ExpandableContentProps) (c : ContentNode)
    (hchar : truthyNat p.maxCharacters = true)
    (htext : c.effectiveText = c.textContent)
    (hctrl : p.controlled = false) :
    ((observe p c (runEffect p (initState p))).needsExpansion =
      decide (c.textContent.length > p.maxCharacters.getD 0)) ∧
    (c.textContent.length ≤ p.maxCharacters.getD 0 →
      getTruncatedContent p c false = DisplayedContent.original ∧
      renderContent (render p c (observe p c (runEffect p (initState p)))) =
        DisplayedContent.original ∧
      renderHasButton (render p c (observe p c (runEffect p (initState p)))) =
        false) ∧
    (c.textContent.length > p.maxCharacters.getD 0 →
      renderContent (render p c (observe p c (runEffect p (initState p)))) =
        DisplayedContent.truncated
          (c.textContent.take (p.maxCharacters.getD 0) ++ "...") ∧
      renderHasButton (render p c (observe p c (runEffect p (initState p)))) =
        true ∧
      renderContent
          (render p c
            (handleToggle p (observe p c (runEffect p (initState p)))).1) =
        DisplayedContent.original) := by
  refine ⟨by simp [observe, hchar], ?_, ?_⟩
  · intro hle
    have hne : decide (c.textContent.length > p.maxCharacters.getD 0) = false := by
      simpa using Nat.not_lt.mpr hle
    refine ⟨by simp [getTruncatedContent, hchar, htext, hle], ?_, ?_⟩ <;>
      · by_cases hpos : c.scrollHeight > 0 <;>
          simp [render, observe, expandedVal, getTruncatedContent,
            renderContent, renderHasButton, hchar, hne, hctrl, htext, hle, hpos]
  · intro hgt
    have hne : decide (c.textContent.length > p.maxCharacters.getD 0) = true := by
      simpa using hgt
    have hnle : ¬(c.effectiveText.length ≤ p.maxCharacters.getD 0) := by
      rw [htext] ; omega
    refine ⟨?_, ?_, ?_⟩ <;>
      simp [render, observe, runEffect, initState, expandedVal, handleToggle,
        getTruncatedContent, renderContent, renderHasButton, hchar, hne,
        hctrl, htext, hnle, hgt]

/-- Witness for C2 amended at `maxCharacters = 3` and the six-character string
`"abcdef"`: collapsed display `"abc..."`, toggle present, full content after
expanding. -/
theorem C2_char_bound_witness :
    (truthyNat ({ maxCharacters := some 3 } :
        ExpandableContentProps).maxCharacters = true ∧
      ({ asString := some "abcdef", textContent := "abcdef", scrollHeight := 50 } :
          ContentNode).effectiveText =
        ({ asString := some "abcdef", textContent := "abcdef", scrollHeight := 50 } :
          ContentNode).textContent) ∧
    (((observe { maxCharacters := some 3 }
        { asString := some "abcdef", textContent := "abcdef", scrollHeight := 50 }
        (runEffect { maxCharacters := some 3 }
          (initState { maxCharacters := some 3 }))).needsExpansion =
      decide (({ asString := some "abcdef", textContent := "abcdef", scrollHeight := 50 } :
          ContentNode).textContent.length >
        (({ maxCharacters := some 3 } :
          ExpandableContentProps).maxCharacters.getD 0))) ∧
    (({ asString := some "abcdef", textContent := "abcdef", scrollHeight := 50 } :
        ContentNode).textContent.length ≤
        ({ maxCharacters := some 3 } :
          ExpandableContentProps).maxCharacters.getD 0 →
      getTruncatedContent { maxCharacters := some 3 }
          { asString := some "abcdef", textContent := "abcdef", scrollHeight := 50 }
          false = DisplayedContent.original ∧
      renderContent
          (render { maxCharacters := some 3 }
            { asString := some "abcdef", textContent := "abcdef", scrollHeight := 50 }
            (observe { maxCharacters := some 3 }
              { asString := some "abcdef", textContent := "abcdef", scrollHeight := 50 }
              (runEffect { maxCharacters := some 3 }
                (initState { maxCharacters := some 3 })))) =
        DisplayedContent.original ∧
      renderHasButton
          (render { maxCharacters := some 3 }
            { asString := some "abcdef", textContent := "abcdef", scrollHeight := 50 }
            (observe { maxCharacters := some 3 }
              { asString := some "abcdef", textContent := "abcdef", scrollHeight := 50 }
              (runEffect { maxCharacters := some 3 }
                (initState { maxCharacters := some 3 })))) = false) ∧
    (({ asString := some "abcdef", textContent := "abcdef", scrollHeight := 50 } :
        ContentNode).textContent.length >
        ({ maxCharacters := some 3 } :
          ExpandableContentProps).maxCharacters.getD 0 →
      renderContent
          (render { maxCharacters := some 3 }
            { asString := some "abcdef", textContent := "abcdef", scrollHeight := 50 }
            (observe { maxCharacters := some 3 }
              { asString := some "abcdef", textContent := "abcdef", scrollHeight := 50 }
              (runEffect { maxCharacters := some 3 }
                (initState { maxCharacters := some 3 })))) =
        DisplayedContent.truncated
          (({ asString := some "abcdef", textContent := "abcdef", scrollHeight := 50 } :
              ContentNode).textContent.take
            (({ maxCharacters := some 3 } :
              ExpandableContentProps).maxCharacters.getD 0) ++ "...") ∧
      renderHasButton
          (render { maxCharacters := some 3 }
            { asString := some "abcdef", textContent := "abcdef", scrollHeight := 50 }
            (observe { maxCharacters := some 3 }
              { asString := some "abcdef", textContent := "abcdef", scrollHeight := 50 }
              (runEffect { maxCharacters := some 3 }
                (initState { maxCharacters := some 3 })))) = true ∧
      renderContent
          (render { maxCharacters := some 3 }
            { asString := some "abcdef", textContent := "abcdef", scrollHeight := 50 }
            (handleToggle { maxCharacters := some 3 }
              (observe { maxCharacters := some 3 }
                { asString := some "abcdef", textContent := "abcdef", scrollHeight := 50 }
                (runEffect { maxCharacters := some 3 }
                  (initState { maxCharacters := some 3 })))).1) =
        DisplayedContent.original)) :=
  ⟨⟨rfl, rfl⟩,
   C2_char_bound { maxCharacters := some 3 }
     { asString := some "abcdef", textContent := "abcdef", scrollHeight := 50 }
     rfl rfl rfl⟩

/-- C7 counterexample: the truncation decision of `ExpandableText` is not the
whitespace-splitting formula of the spec — on `"a\nb"` with a word bound of
`1`, splitting on whitespace counts `2` words and demands truncation, but the
source splits on the space character only, counts `1` piece, decides no
truncation and renders the full text with no toggle. -/
theorem C7_counterexample :
    ExpandableText.needsTruncation "a\nb" 150 (some 1) = false ∧
    ExpandableText.needsTruncationSpecModel "a\nb" 150 (some 1) = true ∧
    ExpandableText.renderText "a\nb" 150 (some 1) false "Read more" "Read less" =
      ExpandableText.TextRender.plain "a\nb" := by
  refine ⟨?_, ?_, ?_⟩ <;> decide

/-- C7 amended: the truncation decision is the pure synchronous function
`needsTruncation = (wordBound ? wordCount(text) > wordBound : text.length > charBound)`
where `wordCount` splits the text on the space character (not on general
whitespace); a positive word bound takes precedence over the character bound
(the decision is independent of the character bound then), and whenever the
decision is false the full text is rendered as a bare paragraph with no
toggle. -/
theorem C7_text_truncation_decision (text : String) (mc w : Nat) (hw : 0 < w) :
    (ExpandableText.needsTruncation text mc (some w) =
      decide (ExpandableText.spaceWordCount text > w)) ∧
    (∀ mc2 : Nat, ExpandableText.needsTruncation text mc2 (some w) =
      ExpandableText.needsTruncation text mc (some w)) ∧
    (ExpandableText.needsTruncation text mc none = decide (text.length > mc)) ∧
    (∀ (mw : Option Nat) (expanded : Bool) (el cl : String),
      ExpandableText.needsTruncation text mc mw = false →
      ExpandableText.renderText text mc mw expanded el cl =
        ExpandableText.TextRender.plain text) := by
  have ht : truthyNat (some w) = true := by
    simp [truthyNat] ; omega
  refine ⟨?_, ?_, ?_, ?_⟩
  · simp [ExpandableText.needsTruncation, ht]
  · intro mc2 ; simp [ExpandableText.needsTruncation, ht]
  · simp [ExpandableText.needsTruncation, truthyNat]
  · intro mw expanded el cl hfalse
    simp [ExpandableText.renderText, hfalse]

/-- Witness for C7 amended at `"a b c"` with word bound `1`: the space-split
word count is `3`, so the decision is `true` and independent of the character
bound. -/
theorem C7_text_truncation_decision_witness :
    0 < 1 ∧
    ((ExpandableText.needsTruncation "a b c" 150 (some 1) =
        decide (ExpandableText.spaceWordCount "a b c" > 1)) ∧
      (∀ mc2 : Nat, ExpandableText.needsTruncation "a b c" mc2 (some 1) =
        ExpandableText.needsTruncation "a b c" 150 (some 1)) ∧
      (ExpandableText.needsTruncation "a b c" 150 none =
        decide ("a b c".length > 150)) ∧
      (∀ (mw : Option Nat) (expanded : Bool) (el cl : String),
        ExpandableText.needsTruncation "a b c" 150 mw = false →
        ExpandableText.renderText "a b c" 150 mw expanded el cl =
          ExpandableText.TextRender.plain "a b c")) :=
  ⟨by decide, C7_text_truncation_decision "a b c" 150 1 (by decide)⟩

/-- C10: `LoadingComponent` selects its branch with strict precedence
error > loading > empty > content; a function-typed child is applied to the
data only when the data is defined, and `null` is rendered inside the fragment
when it is not. -/
theorem C10_loading_component_precedence {T N : Type}
    (p : LoadingComponentProps T N) :
    (p.error = true → LoadingComponent p = LCResult.errorUI p.errorComponent) ∧
    (p.error = false → p.loading = true →
      LoadingComponent p = LCResult.loadingUI p.loadingComponent) ∧
    (p.error = false → p.loading = false → p.empty = true →
      LoadingComponent p = LCResult.emptyUI p.emptyComponent) ∧
    (p.error = false → p.loading = false → p.empty = false →
      ((∀ f : T → N, p.children = some (LCChildren.fn f) →
        LoadingComponent p = LCResult.fragment (p.data.map f) ∧
        (p.data = none → LoadingComponent p = LCResult.fragment none)) ∧
      (∀ n : N, p.children = some (LCChildren.node n) →
        LoadingComponent p = LCResult.fragment (some n)) ∧
      (p.children = none → LoadingComponent p = LCResult.fragment none))) := by
  refine ⟨?_, ?_, ?_, ?_⟩
  · intro he ; simp [LoadingComponent, he]
  · intro he hl ; simp [LoadingComponent, he, hl]
  · intro he hl hm ; simp [LoadingComponent, he, hl, hm]
  · intro he hl hm
    refine ⟨?_, ?_, ?_⟩
    · intro f hf
      constructor
      · simp [LoadingComponent, he, hl, hm, hf]
      · intro hd ; simp [LoadingComponent, he, hl, hm, hf, hd]
    · intro n hn ; simp [LoadingComponent, he, hl, hm, hn]
    · intro hn ; simp [LoadingComponent, he, hl, hm, hn]

/-- Witness for C10 at concrete inputs: the error branch wins over a
simultaneous loading flag, the loading branch renders next, a function child
is applied to defined data (`4 ↦ 5`), and the same function child with
undefined data renders `null` without being called. -/
theorem C10_loading_component_precedence_witness :
    LoadingComponent
        ({ loading := true, error := true } : LoadingComponentProps Nat Nat) =
      LCResult.errorUI none ∧
    LoadingComponent ({ loading := true } : LoadingComponentProps Nat Nat) =
      LCResult.loadingUI none ∧
    LoadingComponent
        ({ loading := false, children := some (LCChildren.fn (fun n => n + 1)), data := some 4 } :
          LoadingComponentProps Nat Nat) =
      LCResult.fragment (some 5) ∧
    LoadingComponent
        ({ loading := false, children := some (LCChildren.fn (fun n => n + 1)) } :
          LoadingComponentProps Nat Nat) =
      LCResult.fragment none :=
  ⟨(C10_loading_component_precedence
      ({ loading := true, error := true } : LoadingComponentProps Nat Nat)).1 rfl,
   (C10_loading_component_precedence
      ({ loading := true } : LoadingComponentProps Nat Nat)).2.1 rfl rfl,
   ((C10_loading_component_precedence
      ({ loading := false, children := some (LCChildren.fn (fun n => n + 1)), data := some 4 } :
        LoadingComponentProps Nat Nat)).2.2.2 rfl rfl rfl).1
      (fun n => n + 1) rfl |>.1,
   ((C10_loading_component_precedence
      ({ loading := false, children := some (LCChildren.fn (fun n => n + 1)) } :
        LoadingComponentProps Nat Nat)).2.2.2 rfl rfl rfl).1
      (fun n => n + 1) rfl |>.2 rfl⟩
